import Mathlib

/-!
Verification development for the komari-node-agent repository.

The agent consists of two layers:
  - a metrics sampler (class ContainerMetrics, file src/container-metrics.js):
    cgroup v1/v2 detection, reading of kernel accounting files, rate
    computation against the previous sample, uptime resolution;
  - a reporting client (class KomariAgent, file src/komari-agent.js):
    WebSocket streaming of snapshots, reconnect handling, payload shaping.

The JavaScript code is embedded shallowly below:
  - JavaScript numbers are modelled as rationals; values that can be either
    a number or null are modelled as Option or as the JsVal sum type where
    nullness itself is under scrutiny;
  - the process environment (filesystem reads, os facts, subprocess output,
    clock) is a record of pure data, so that every method becomes a pure
    function of the environment and the explicit mutable state;
  - string processing mirrors the JavaScript expressions; the small regular
    expressions of the source are implemented directly as character-list
    scanners with the same matching semantics on the inputs the code feeds
    them (per-line anchored patterns, whitespace splitting, integer parsing).
-/

namespace KomariNode

/-! ## Character-list string helpers (kernel-reducible) -/

/-- Whitespace class used by JavaScript trim and the \s regex class
(ASCII subset; the exotic unicode spaces are not modelled). -/
def isWsChar (c : Char) : Bool :=
  c = ' ' || c = '\t' || c = '\n' || c = '\r' || c = '\x0b' || c = '\x0c'

/-- JavaScript String.prototype.trim on a character list. -/
def trimL (l : List Char) : List Char :=
  ((l.dropWhile isWsChar).reverse.dropWhile isWsChar).reverse

def trimS (s : String) : String := String.mk (trimL s.data)

/-- Split on a single separator character, as JavaScript split(c):
always returns at least one (possibly empty) field. -/
def splitOnCharAux (c : Char) : List Char → List Char → List (List Char)
  | [], acc => [acc.reverse]
  | x :: xs, acc =>
    if x = c then acc.reverse :: splitOnCharAux c xs []
    else splitOnCharAux c xs (x :: acc)

def splitOnCharL (c : Char) (l : List Char) : List (List Char) :=
  splitOnCharAux c l []

/-- JavaScript split on the regex of one-or-more whitespace characters:
maximal whitespace runs separate the fields; a leading or trailing run
contributes an empty field; the empty string yields one empty field. -/
def jsSplitWs (l : List Char) : List (List Char) :=
  let st := l.foldl
    (fun (st : List (List Char) × List Char × Bool) c =>
      let (fields, cur, prevWs) := st
      if isWsChar c then
        if prevWs then (fields, cur, true)
        else (cur.reverse :: fields, [], true)
      else (fields, c :: cur, false))
    ([], [], false)
  ((if st.2.2 then [] :: st.1 else st.2.1.reverse :: st.1)).reverse

def isPre (p l : List Char) : Bool := List.isPrefixOf p l

def endsWithL (p l : List Char) : Bool := List.isSuffixOf p l

/-- Element of a list at a JavaScript (possibly negative) index:
undefined is none. -/
def jsIdx (xs : List α) (i : Int) : Option α :=
  if i < 0 then none else xs.get? i.toNat

/-- Digits of a decimal literal folded to a natural number. -/
def digitsToNat (l : List Char) : ℕ :=
  l.foldl (fun n c => n * 10 + (c.toNat - 48)) 0

/-- JavaScript parseInt(x, 10) of a string: trims, accepts an optional
sign, reads the maximal leading digit run, NaN (none) when there is no
digit. -/
def parseIntL (l : List Char) : Option ℚ :=
  let t := trimL l
  let (neg, rest) : Bool × List Char :=
    match t with
    | '-' :: r => (true, r)
    | '+' :: r => (false, r)
    | r => (false, r)
  let ds := rest.takeWhile Char.isDigit
  if ds = [] then none
  else some (if neg then -(digitsToNat ds : ℚ) else (digitsToNat ds : ℚ))

/-- JavaScript Number(s) restricted to the decimal forms the agent feeds
it: the empty (trimmed) string is 0, optional sign, digits with an
optional fractional part; anything else (hex, exponents, a bare dot)
counts as NaN, i.e. none. -/
def jsNumber (l : List Char) : Option ℚ :=
  let t := trimL l
  if t = [] then some 0 else
  let (neg, rest) : Bool × List Char :=
    match t with
    | '-' :: r => (true, r)
    | '+' :: r => (false, r)
    | r => (false, r)
  let signed : ℚ → ℚ := fun q => if neg then -q else q
  match splitOnCharL '.' rest with
  | [a] =>
    if a ≠ [] ∧ a.all Char.isDigit then some (signed (digitsToNat a)) else none
  | [a, b] =>
    if a ≠ [] ∧ a.all Char.isDigit ∧ b ≠ [] ∧ b.all Char.isDigit then
      some (signed ((digitsToNat a : ℚ) + (digitsToNat b : ℚ) / (10 ^ b.length)))
    else none
  | _ => none

/-- A JavaScript value that is either null or a number. -/
inductive JsVal
  | null
  | num (q : ℚ)
deriving DecidableEq

/-- The nullish-coalescing operator applied to a number-or-null value. -/
def JsVal.getD : JsVal → ℚ → ℚ
  | .null, d => d
  | .num q, _ => q

/-- The value is a number and that number is nonnegative. -/
def JsVal.nonnegNum : JsVal → Prop
  | .null => False
  | .num q => 0 ≤ q

/-- Truthiness filter on an optional string: the empty string is falsy,
i.e. both null and the empty string collapse to none, matching the
`if (!text)` guards of the source. -/
def truthyStr : Option String → Option String
  | none => none
  | some s => if s = "" then none else some s

/-- Insert-or-overwrite in an association list, as assignment to a
JavaScript object property. -/
def upsert (m : List (String × α)) (k : String) (v : α) : List (String × α) :=
  if m.any (fun kv => kv.1 = k) then
    m.map (fun kv => if kv.1 = k then (k, v) else kv)
  else m ++ [(k, v)]

/-! ## Environment and configuration -/

/-- One address record of os.networkInterfaces(). -/
structure NetAddr where
  internal : Bool
  family : String
  address : String
deriving DecidableEq

/-- The process environment seen by ContainerMetrics: filesystem contents,
operating-system facts, subprocess outputs and the clock, all as pure
data. A file whose read would fail is none; a subprocess whose execution
would throw is none. -/
structure Env where
  fs : String → Option String
  fsExists : String → Bool
  nowMs : ℚ
  cpusLen : ℕ
  totalmem : ℚ
  load1 : ℚ
  load5 : ℚ
  load15 : ℚ
  hostname : String
  platform : String
  kernel : String
  arch : String
  netInterfaces : List (String × List NetAddr)
  dfOut : Option String
  procEntries : List String
  processUptime : ℚ
  clkTckOut : Option String

/-- Constructor options of ContainerMetrics after the normalisation done
in the constructor (defaults applied, policy strings lowercased). -/
structure Options where
  diskPath : String
  includeLoopback : Bool
  uptimeSource : String
  ramTotalFallback : String
deriving DecidableEq

/-- (os.cpus() or empty).length or 1. -/
def hostCoresOf (env : Env) : ℕ :=
  if env.cpusLen = 0 then 1 else env.cpusLen

/-- this._readFileSafe: a null or empty path reads as null, otherwise the
read result or null on failure. -/
def _readFileSafe (env : Env) (p : Option String) : Option String :=
  match p with
  | none => none
  | some s => if s = "" then none else env.fs s

/-- this._toInt: null input stays null, otherwise parseInt base 10 with a
NaN result mapped to null. -/
def _toInt (x : Option String) : Option ℚ :=
  match x with
  | none => none
  | some s => parseIntL s.data

/-! ## Cgroup detection -/

inductive CgroupMode
  | v1
  | v2
  | unavailable
deriving DecidableEq

/-- The path object of the detected descriptor: one record holding every
key either branch of the source may set; a key the branch does not set is
undefined, i.e. none. -/
structure CgroupPaths where
  cpuStat : Option String := none
  cpuMax : Option String := none
  memCur : Option String := none
  memMax : Option String := none
  swapCur : Option String := none
  swapMax : Option String := none
  cpuacctUsage : Option String := none
  cpuQuota : Option String := none
  cpuPeriod : Option String := none
  memUsage : Option String := none
  memLimit : Option String := none
  memswUsage : Option String := none
  memswLimit : Option String := none
deriving DecidableEq

structure CgroupDescriptor where
  mode : CgroupMode
  p : CgroupPaths
deriving DecidableEq

/-- Node path.join limited to the shapes the agent builds (no dot-segment
normalisation): a duplicate slash at the seam is collapsed. -/
def pathJoin (a b : String) : String :=
  let a2 := if endsWithL ['/'] a.data then a.data.dropLast else a.data
  let b2 := if isPre ['/'] b.data then b.data.drop 1 else b.data
  String.mk (a2 ++ ('/' :: b2))

/-- The controller map parsed from /proc/self/cgroup: lines of exactly
three colon-separated parts contribute each listed controller mapped to
the relative path. -/
def controllerMapOf (cg : String) : List (String × String) :=
  (splitOnCharL '\n' (trimL cg.data)).foldl
    (fun map line =>
      let parts := splitOnCharL ':' line
      match parts with
      | [_, ctrls, rel] =>
        ((splitOnCharL ',' ctrls).filter (fun c => c ≠ [])).foldl
          (fun m c => upsert m (String.mk c) (String.mk rel)) map
      | _ => map)
    []

/-- this._detectCgroup: probe the v2 marker file; on the v1 branch parse
the process cgroup membership to locate per-controller directories. -/
def _detectCgroup (env : Env) : CgroupDescriptor :=
  if env.fsExists "/sys/fs/cgroup/cgroup.controllers" then
    { mode := .v2,
      p := { cpuStat := some "/sys/fs/cgroup/cpu.stat",
             cpuMax := some "/sys/fs/cgroup/cpu.max",
             memCur := some "/sys/fs/cgroup/memory.current",
             memMax := some "/sys/fs/cgroup/memory.max",
             swapCur := some "/sys/fs/cgroup/memory.swap.current",
             swapMax := some "/sys/fs/cgroup/memory.swap.max" } }
  else
    let cg := (_readFileSafe env (some "/proc/self/cgroup")).getD ""
    let map := controllerMapOf cg
    let cpuacct := (map.lookup "cpuacct").map (pathJoin "/sys/fs/cgroup/cpuacct")
    let cpu := (map.lookup "cpu").map (pathJoin "/sys/fs/cgroup/cpu")
    let mem := (map.lookup "memory").map (pathJoin "/sys/fs/cgroup/memory")
    { mode := .v1,
      p := { cpuacctUsage := cpuacct.map (fun d => pathJoin d "cpuacct.usage"),
             cpuQuota := cpu.map (fun d => pathJoin d "cpu.cfs_quota_us"),
             cpuPeriod := cpu.map (fun d => pathJoin d "cpu.cfs_period_us"),
             memUsage := mem.map (fun d => pathJoin d "memory.usage_in_bytes"),
             memLimit := mem.map (fun d => pathJoin d "memory.limit_in_bytes"),
             memswUsage := mem.map (fun d => pathJoin d "memory.memsw.usage_in_bytes"),
             memswLimit := mem.map (fun d => pathJoin d "memory.memsw.limit_in_bytes") } }

/-! ## Cgroup cpu/mem/swap reading -/

structure CpuReading where
  usageSeconds : ℚ
  limitCores : Option ℚ
deriving DecidableEq

structure MemReading where
  usageBytes : Option ℚ
  limitBytes : ℚ
deriving DecidableEq

structure SwapReading where
  usageBytes : ℚ
  limitBytes : ℚ
deriving DecidableEq

structure CgroupReading where
  cpu : CpuReading
  mem : MemReading
  swap : SwapReading
deriving DecidableEq

/-- this._parseKeyValue: first two whitespace-separated tokens of each
trimmed line; a truthy key maps to the parsed (possibly null) value. -/
def _parseKeyValue (text : Option String) : List (String × Option ℚ) :=
  match truthyStr text with
  | none => []
  | some t =>
    (splitOnCharL '\n' (trimL t.data)).foldl
      (fun out line =>
        let toks := jsSplitWs (trimL line)
        match jsIdx toks 0 with
        | none => out
        | some k =>
          if k = [] then out
          else upsert out (String.mk k) (_toInt ((jsIdx toks 1).map String.mk)))
      []

/-- this._parseCpuMax: quota and period tokens of the v2 cpu.max file;
the literal max quota means no limit (null). -/
def _parseCpuMax (text : Option String) : Option ℚ :=
  match truthyStr text with
  | none => none
  | some t =>
    let toks := jsSplitWs (trimL t.data)
    match jsIdx toks 0, jsIdx toks 1 with
    | some quota, some period =>
      if quota = [] ∨ period = [] then none
      else if quota = "max".data then none
      else
        match parseIntL quota, parseIntL period with
        | some q, some per => if 0 < per then some (q / per) else none
        | _, _ => none
    | _, _ => none

/-- The fallback substituted for an unreadable or unbounded memory limit:
host total memory under the host policy, zero otherwise. -/
def ramFallback (opts : Options) (env : Env) : ℚ :=
  if opts.ramTotalFallback = "host" then env.totalmem else 0

/-- Half of Number.MAX_SAFE_INTEGER, the v1 threshold above which a
memory limit is considered unbounded. -/
def msiHalf : ℚ := (9007199254740991 : ℚ) / 2

/-- this._getCgroupCpuMemSwap for a resolved descriptor. -/
def _getCgroupCpuMemSwap (opts : Options) (env : Env) (cg : CgroupDescriptor) :
    CgroupReading :=
  if cg.mode = .v2 then
    let cpuStat := _readFileSafe env cg.p.cpuStat
    let cpuMax := _readFileSafe env cg.p.cpuMax
    let memCur := _readFileSafe env cg.p.memCur
    let memMax := _readFileSafe env cg.p.memMax
    let swapCur := _readFileSafe env cg.p.swapCur
    let swapMax := _readFileSafe env cg.p.swapMax
    let kv := _parseKeyValue cpuStat
    let usageUsec := ((kv.lookup "usage_usec").getD none).getD 0
    let limitCores := _parseCpuMax cpuMax
    let memUsageBytes := _toInt memCur
    let memLimitRaw : Option ℚ :=
      match truthyStr memMax with
      | some s => if trimS s ≠ "max" then _toInt (some s) else none
      | none => none
    let memLimitBytes : ℚ :=
      match memLimitRaw with
      | some v => if v ≤ 0 then ramFallback opts env else v
      | none => ramFallback opts env
    let swapUsageBytes := (_toInt swapCur).getD 0
    let swapLimitBytes : ℚ :=
      match truthyStr swapMax with
      | some s => if trimS s ≠ "max" then (_toInt (some s)).getD 0 else 0
      | none => 0
    { cpu := { usageSeconds := usageUsec / 1000000, limitCores },
      mem := { usageBytes := memUsageBytes, limitBytes := memLimitBytes },
      swap := { usageBytes := swapUsageBytes, limitBytes := swapLimitBytes } }
  else
    let usageNs := _readFileSafe env cg.p.cpuacctUsage
    let quotaUs := _readFileSafe env cg.p.cpuQuota
    let periodUs := _readFileSafe env cg.p.cpuPeriod
    let memUsage := _readFileSafe env cg.p.memUsage
    let memLimit := _readFileSafe env cg.p.memLimit
    let memswUsage := _readFileSafe env cg.p.memswUsage
    let memswLimit := _readFileSafe env cg.p.memswLimit
    let cpuUsageSeconds := ((_toInt usageNs).getD 0) / 1000000000
    let limitCores : Option ℚ :=
      match _toInt quotaUs, _toInt periodUs with
      | some q, some per => if 0 < q ∧ 0 < per then some (q / per) else none
      | _, _ => none
    let memUsageBytes := _toInt memUsage
    let memLimitBytes : ℚ :=
      match _toInt memLimit with
      | none => ramFallback opts env
      | some v => if v = 0 ∨ msiHalf ≤ v then ramFallback opts env else v
    let memswUsageBytes := _toInt memswUsage
    let memswLimitBytes := _toInt memswLimit
    let swapUsageBytes : ℚ :=
      match memswUsageBytes, memUsageBytes with
      | some a, some b => max 0 (a - b)
      | _, _ => 0
    let swapLimitBytes : ℚ :=
      match memswLimitBytes with
      | some a => max 0 (a - memLimitBytes)
      | none => 0
    { cpu := { usageSeconds := cpuUsageSeconds, limitCores },
      mem := { usageBytes := memUsageBytes, limitBytes := memLimitBytes },
      swap := { usageBytes := swapUsageBytes, limitBytes := swapLimitBytes } }

/-! ## Host facts, disk, network, connections, processes -/

/-- One line of /etc/os-release matched against the anchored pattern of an
uppercase-alphanumeric-underscore key, an equals sign, and the rest of the
line as value. -/
def parseOsReleaseLine (line : List Char) : Option (String × String) :=
  let isKeyChar : Char → Bool := fun c => (c.isUpper || c.isDigit || c = '_')
  let k := line.takeWhile isKeyChar
  let rest := line.drop k.length
  if k ≠ [] ∧ isPre ['='] rest then some (String.mk k, String.mk (rest.drop 1))
  else none

/-- Trim the raw value and strip at most one leading and one trailing
double quote, as the chained replace calls of the source. -/
def stripQuotes (s : List Char) : List Char :=
  let s1 := if isPre ['\x22'] s then s.drop 1 else s
  if endsWithL ['\x22'] s1 then s1.dropLast else s1

/-- this._readOsRelease: key=value map of /etc/os-release. -/
def _readOsRelease (env : Env) : Option (List (String × String)) :=
  match truthyStr (_readFileSafe env (some "/etc/os-release")) with
  | none => none
  | some text =>
    some ((splitOnCharL '\n' text.data).foldl
      (fun obj line =>
        match parseOsReleaseLine line with
        | none => obj
        | some (k, v) => upsert obj k (String.mk (stripQuotes (trimL v.data))))
      [])

/-- One line matched against a key, optional whitespace, a colon, and a
nonempty remainder, returning the remainder (the per-line form of the
three /proc/cpuinfo model-name patterns). -/
def matchKeyColon (key : String) (line : List Char) : Option String :=
  if isPre key.data line then
    let r := (line.drop key.data.length).dropWhile isWsChar
    match r with
    | ':' :: v => if v = [] then none else some (String.mk v)
    | _ => none
  else none

def firstLineMatch (key : String) (lines : List (List Char)) : Option String :=
  lines.findSome? (matchKeyColon key)

/-- this._readCpuModel: the first of the model name, Hardware, Processor
patterns over /proc/cpuinfo, trimmed. -/
def _readCpuModel (env : Env) : Option String :=
  match truthyStr (_readFileSafe env (some "/proc/cpuinfo")) with
  | none => none
  | some text =>
    let lines := splitOnCharL '\n' text.data
    let m := (firstLineMatch "model name" lines).orElse
      (fun _ => (firstLineMatch "Hardware" lines).orElse
        (fun _ => firstLineMatch "Processor" lines))
    m.map trimS

/-- An optional string is falsy when it is null or empty. -/
def isFalsyS (o : Option String) : Bool :=
  o = none || o = some ""

/-- this._pickIps: first non-internal IPv4 and IPv6 addresses, skipping
the loopback interface unless configured otherwise. -/
def _pickIps (opts : Options) (env : Env) : Option String × Option String :=
  env.netInterfaces.foldl
    (fun acc kv =>
      if ¬opts.includeLoopback ∧ kv.1 = "lo" then acc
      else kv.2.foldl
        (fun (acc2 : Option String × Option String) x =>
          if x.internal then acc2
          else
            let acc3 :=
              if x.family = "IPv4" ∧ isFalsyS acc2.1 then (some x.address, acc2.2)
              else acc2
            if x.family = "IPv6" ∧ isFalsyS acc3.2 then (acc3.1, some x.address)
            else acc3)
        acc)
    (none, none)

structure SystemBasic where
  hostname : String
  platform : String
  kernel : String
  arch : String
  cpuModel : Option String
  cpuCores : ℕ
  osRelease : Option (List (String × String))
  osPretty : Option String
  ipv4 : Option String
  ipv6 : Option String
deriving DecidableEq

/-- this._getSystemBasic. -/
def _getSystemBasic (opts : Options) (env : Env) : SystemBasic :=
  let osRelease := _readOsRelease env
  let osPretty : Option String :=
    match osRelease with
    | none => none
    | some m =>
      match m.lookup "PRETTY_NAME" with
      | some v => if v = "" then none else some v
      | none => none
  let ips := _pickIps opts env
  { hostname := env.hostname,
    platform := env.platform,
    kernel := env.kernel,
    arch := env.arch,
    cpuModel := _readCpuModel env,
    cpuCores := hostCoresOf env,
    osRelease,
    osPretty,
    ipv4 := ips.1,
    ipv6 := ips.2 }

/-- this._getDiskUsage: parse the second line of the df output, taking
the fifth and fourth columns from the end as kilobyte totals. -/
def _getDiskUsage (env : Env) : Option ℚ × Option ℚ :=
  match env.dfOut with
  | none => (none, none)
  | some out =>
    let lines := splitOnCharL '\n' (trimL out.data)
    if lines.length < 2 then (none, none)
    else
      match jsIdx lines 1 with
      | none => (none, none)
      | some line =>
        let cols := jsSplitWs line
        let totalKB := _toInt ((jsIdx cols ((cols.length : Int) - 5)).map String.mk)
        let usedKB := _toInt ((jsIdx cols ((cols.length : Int) - 4)).map String.mk)
        (totalKB.map (fun k => k * 1024), usedKB.map (fun k => k * 1024))

structure NetIf where
  rxBytes : ℚ
  txBytes : ℚ
deriving DecidableEq

/-- this._getNetDev: per-interface cumulative byte counters from the
fixed-format /proc/net/dev table, skipping its two header lines. -/
def _getNetDev (opts : Options) (env : Env) : List (String × NetIf) :=
  let text := (_readFileSafe env (some "/proc/net/dev")).getD ""
  let lines := splitOnCharL '\n' (trimL text.data)
  (lines.drop 2).foldl
    (fun out line =>
      let parts := splitOnCharL ':' line
      match jsIdx parts 1 with
      | none => out
      | some rest =>
        if rest = [] then out
        else
          let iface := String.mk (trimL (parts.headD []))
          if ¬opts.includeLoopback ∧ iface = "lo" then out
          else
            let cols := jsSplitWs (trimL rest)
            if cols.length < 16 then out
            else
              let rx := (_toInt ((jsIdx cols 0).map String.mk)).getD 0
              let tx := (_toInt ((jsIdx cols 8).map String.mk)).getD 0
              upsert out iface { rxBytes := rx, txBytes := tx })
    []

/-- Line count minus header of one /proc/net listing, zero when the file
is missing or falsy. -/
def countLines (t : Option String) : ℕ :=
  match truthyStr t with
  | none => 0
  | some s => (splitOnCharL '\n' (trimL s.data)).length - 1

structure ConnSummary where
  tcp : ℕ
  udp : ℕ
  unixCount : ℕ
deriving DecidableEq

/-- this._getConnSummary. -/
def _getConnSummary (env : Env) : ConnSummary :=
  { tcp := countLines (_readFileSafe env (some "/proc/net/tcp"))
      + countLines (_readFileSafe env (some "/proc/net/tcp6")),
    udp := countLines (_readFileSafe env (some "/proc/net/udp"))
      + countLines (_readFileSafe env (some "/proc/net/udp6")),
    unixCount := countLines (_readFileSafe env (some "/proc/net/unix")) }

/-- One line matched against the Threads pattern: the Threads: label,
one or more whitespace characters, then the captured digit run. -/
def parseThreadsLine (line : List Char) : Option ℕ :=
  if isPre "Threads:".data line then
    let r := line.drop 8
    let r2 := r.dropWhile isWsChar
    if r2.length < r.length then
      let ds := r2.takeWhile Char.isDigit
      if ds = [] then none else some (digitsToNat ds)
    else none
  else none

/-- this._getProcessAndThreads: every numeric /proc entry whose status
file reads truthy counts as one process; its Threads field, when present,
adds to the thread count. The bounded-concurrency worker pool of the
source visits each pid exactly once and only accumulates the two
commutative sums, so the fold below is its deterministic result. -/
def _getProcessAndThreads (env : Env) : ℕ × ℕ :=
  let pids := env.procEntries.filter (fun x => x ≠ "" ∧ x.data.all Char.isDigit)
  pids.foldl
    (fun (acc : ℕ × ℕ) pid =>
      match truthyStr (_readFileSafe env (some ("/proc/" ++ pid ++ "/status"))) with
      | none => acc
      | some st =>
        let tc :=
          match (splitOnCharL '\n' st.data).findSome? parseThreadsLine with
          | some n => acc.2 + n
          | none => acc.2
        (acc.1 + 1, tc))
    (0, 0)

/-! ## Uptime resolution -/

/-- Last index of a character in a list, None when absent (JavaScript
lastIndexOf returning -1). -/
def lastIdxOf (c : Char) (l : List Char) : Option ℕ :=
  l.foldl (fun (st : ℕ × Option ℕ) x =>
      (st.1 + 1, if x = c then some st.1 else st.2))
    (0, none) |>.2

/-- One /proc/stat line matched against the anchored btime pattern: the
btime label, one or more whitespace characters, and a digit run filling
the rest of the line. -/
def parseBtimeLine (line : List Char) : Option ℕ :=
  if isPre "btime".data line then
    let r := line.drop 5
    let r2 := r.dropWhile isWsChar
    if r2.length < r.length ∧ r2 ≠ [] ∧ r2.all Char.isDigit then
      some (digitsToNat r2)
    else none
  else none

/-- Effective clock-tick divisor: the getconf output when it parses to a
positive finite number, 100 otherwise (including a failed execution). -/
def clkTckOf (env : Env) : ℚ :=
  match env.clkTckOut with
  | none => 100
  | some out =>
    match jsNumber (trimL out.data) with
    | some v => if 0 < v then v else 100
    | none => 100

/-- The epoch start time of PID 1 derived inside _pid1UptimeSeconds:
start-ticks field 21 after the command parenthesis of /proc/1/stat,
divided by the clock tick rate and offset by the kernel btime record.
None models every throw path of the source. -/
def _pid1StartEpoch (env : Env) : Option ℚ :=
  match truthyStr (_readFileSafe env (some "/proc/1/stat")),
        truthyStr (_readFileSafe env (some "/proc/stat")) with
  | some stat1, some statBoot =>
    match lastIdxOf ')' stat1.data with
    | none => none
    | some rparen =>
      let after := stat1.data.drop (rparen + 2)
      let parts := jsSplitWs (trimL after)
      match jsIdx parts 20 with
      | none => none
      | some tickStr =>
        match jsNumber tickStr with
        | none => none
        | some startTicks =>
          match (splitOnCharL '\n' statBoot.data).findSome? parseBtimeLine with
          | none => none
          | some btime =>
            some ((btime : ℚ) + startTicks / clkTckOf env)
  | _, _ => none

/-- this._pid1UptimeSeconds, with its throw paths collapsed to none by
the catch of the caller: now minus the PID 1 start epoch, clamped at 0. -/
def _pid1UptimeSeconds (env : Env) : Option ℚ :=
  (_pid1StartEpoch env).map (fun startEpoch => max 0 (env.nowMs / 1000 - startEpoch))

/-- this._looksLikeHostPid1: every nonempty line of the PID 1 cgroup
membership is a root-level entry. -/
def _looksLikeHostPid1 (env : Env) : Bool :=
  match truthyStr (_readFileSafe env (some "/proc/1/cgroup")) with
  | none => false
  | some cg1 =>
    let lines := (splitOnCharL '\n' (trimL cg1.data)).filter (fun l => l ≠ [])
    lines.all (fun ln =>
      ln = "0::/".data || endsWithL ":/".data ln || endsWithL "::/".data ln)

/-- this._getContainerUptimeSeconds: the policy dispatch over process,
pid1 and the auto heuristic. -/
def _getContainerUptimeSeconds (opts : Options) (env : Env) : ℚ :=
  if opts.uptimeSource = "process" then env.processUptime
  else
    let pid1Uptime := _pid1UptimeSeconds env
    if opts.uptimeSource = "pid1" then pid1Uptime.getD env.processUptime
    else if _looksLikeHostPid1 env then env.processUptime
    else pid1Uptime.getD env.processUptime

/-! ## Rate computation and the snapshot -/

/-- The cross-call rate state this._prev (the at field of the source is
named atMs here because at is reserved). -/
structure RateState where
  atMs : ℚ
  cpuUsageSeconds : ℚ
  totalRx : ℚ
  totalTx : ℚ
deriving DecidableEq

structure RatesResult where
  rxBps : ℚ
  txBps : ℚ
  totalRxBytes : ℚ
  totalTxBytes : ℚ
  cpuPercentOfHost : Option ℚ
  cpuPercentOfLimit : Option ℚ
deriving DecidableEq

/-- this._computeRates: returns the rates object and the replacement
rate state. -/
def _computeRates (env : Env) (prev : Option RateState) (now : ℚ)
    (cgroup : CgroupReading) (netDev : List (String × NetIf)) :
    RatesResult × RateState :=
  let hostCores : ℚ := (hostCoresOf env : ℕ)
  let limitCores := (cgroup.cpu.limitCores).getD hostCores
  let totalRx := (netDev.map (fun kv => kv.2.rxBytes)).sum
  let totalTx := (netDev.map (fun kv => kv.2.txBytes)).sum
  let res : RatesResult :=
    match prev with
    | none =>
      { rxBps := max 0 0, txBps := max 0 0,
        totalRxBytes := totalRx, totalTxBytes := totalTx,
        cpuPercentOfHost := none, cpuPercentOfLimit := none }
    | some p =>
      let dt := (now - p.atMs) / 1000
      if 0 < dt then
        let rxBps := (totalRx - p.totalRx) / dt
        let txBps := (totalTx - p.totalTx) / dt
        let dCpu := cgroup.cpu.usageSeconds - p.cpuUsageSeconds
        { rxBps := max 0 rxBps, txBps := max 0 txBps,
          totalRxBytes := totalRx, totalTxBytes := totalTx,
          cpuPercentOfHost := some (dCpu / (dt * hostCores) * 100),
          cpuPercentOfLimit := some (dCpu / (dt * limitCores) * 100) }
      else
        { rxBps := max 0 0, txBps := max 0 0,
          totalRxBytes := totalRx, totalTxBytes := totalTx,
          cpuPercentOfHost := none, cpuPercentOfLimit := none }
  (res, { atMs := now, cpuUsageSeconds := cgroup.cpu.usageSeconds,
          totalRx := totalRx, totalTx := totalTx })

/-- The mutable sampler state: this._prev and this._cgroup. -/
structure MState where
  prev : Option RateState
  cgroup : Option CgroupDescriptor
deriving DecidableEq

structure SystemInfo where
  basic : SystemBasic
  diskTotalBytes : Option ℚ
  memLimitBytes : ℚ
  swapLimitBytes : ℚ
  cgroupMode : CgroupMode
deriving DecidableEq

structure Metrics where
  cpuUsagePercentOfLimit : JsVal
  cpuUsagePercentOfHost : JsVal
  cpuLimitCores : Option ℚ
  ramTotal : ℚ
  ramUsed : Option ℚ
  swapTotal : ℚ
  swapUsed : ℚ
  load1 : ℚ
  load5 : ℚ
  load15 : ℚ
  diskTotal : Option ℚ
  diskUsed : Option ℚ
  upBps : JsVal
  downBps : JsVal
  totalUpBytes : ℚ
  totalDownBytes : ℚ
  byInterface : List (String × NetIf)
  ipv4 : Option String
  ipv6 : Option String
  connections : ConnSummary
  processCount : ℕ
  threadCount : ℕ
  uptimeSeconds : ℚ
deriving DecidableEq

/-- The externally visible snapshot. The at field keeps the raw
millisecond instant; its ISO rendering is presentation only. -/
structure Snapshot where
  atMs : ℚ
  system : SystemInfo
  metrics : Metrics
deriving DecidableEq

def jsOfOpt : Option ℚ → JsVal
  | none => JsVal.null
  | some q => JsVal.num q

/-- snapshot(): resolve the descriptor once, gather every subsystem,
compute rates against the previous state, and assemble the snapshot
together with the replacement sampler state. -/
def snapshot (opts : Options) (env : Env) (st : MState) : Snapshot × MState :=
  let cg := st.cgroup.getD (_detectCgroup env)
  let now := env.nowMs
  let basicSystem := _getSystemBasic opts env
  let c := _getCgroupCpuMemSwap opts env cg
  let disk := _getDiskUsage env
  let netDev := _getNetDev opts env
  let conn := _getConnSummary env
  let proc := _getProcessAndThreads env
  let uptime := _getContainerUptimeSeconds opts env
  let computedPrev := _computeRates env st.prev now c netDev
  let computed := computedPrev.1
  ({ atMs := now,
     system :=
       { basic := basicSystem,
         diskTotalBytes := disk.1,
         memLimitBytes := c.mem.limitBytes,
         swapLimitBytes := c.swap.limitBytes,
         cgroupMode := cg.mode },
     metrics :=
       { cpuUsagePercentOfLimit := jsOfOpt computed.cpuPercentOfLimit,
         cpuUsagePercentOfHost := jsOfOpt computed.cpuPercentOfHost,
         cpuLimitCores := c.cpu.limitCores,
         ramTotal := c.mem.limitBytes,
         ramUsed := c.mem.usageBytes,
         swapTotal := c.swap.limitBytes,
         swapUsed := c.swap.usageBytes,
         load1 := env.load1, load5 := env.load5, load15 := env.load15,
         diskTotal := disk.1, diskUsed := disk.2,
         upBps := JsVal.num computed.txBps,
         downBps := JsVal.num computed.rxBps,
         totalUpBytes := computed.totalTxBytes,
         totalDownBytes := computed.totalRxBytes,
         byInterface := netDev,
         ipv4 := basicSystem.ipv4, ipv6 := basicSystem.ipv6,
         connections := conn,
         processCount := proc.1,
         threadCount := proc.2,
         uptimeSeconds := uptime } },
   { prev := some computedPrev.2, cgroup := some cg })

/-- The identity payload of getBasicInfoForKomari. -/
structure BasicInfo where
  arch : String
  cpu_cores : ℕ
  cpu_name : Option String
  disk_total : ℚ
  ipv4 : String
  ipv6 : String
  mem_total : ℚ
  swap_total : ℚ
  osName : String
  kernel_version : String
  version : String
  virtualization : String
deriving DecidableEq

/-- getBasicInfoForKomari(agentVersion). -/
def getBasicInfoForKomari (opts : Options) (env : Env) (st : MState)
    (agentVersion : String) : BasicInfo × MState :=
  let cg := st.cgroup.getD (_detectCgroup env)
  let sys := _getSystemBasic opts env
  let c := _getCgroupCpuMemSwap opts env cg
  let disk := _getDiskUsage env
  ({ arch := sys.arch,
     cpu_cores := sys.cpuCores,
     cpu_name := sys.cpuModel,
     disk_total := disk.1.getD 0,
     ipv4 := sys.ipv4.getD "",
     ipv6 := sys.ipv6.getD "",
     mem_total := c.mem.limitBytes,
     swap_total := c.swap.limitBytes,
     osName := sys.osPretty.getD sys.platform,
     kernel_version := sys.kernel,
     version := agentVersion,
     virtualization := "Docker" },
   { st with cgroup := some cg })

/-! ## KomariAgent: wire payload -/

/-- this._clamp(v, min, max). -/
def _clamp (v mn mx : ℚ) : ℚ := min mx (max mn v)

/-- The outbound streaming frame assembled by _sendReport from a
snapshot. -/
structure ReportPayload where
  cpuUsage : ℚ
  ramTotal : ℚ
  ramUsed : ℚ
  swapTotal : ℚ
  swapUsed : ℚ
  load1 : ℚ
  load5 : ℚ
  load15 : ℚ
  diskTotal : ℚ
  diskUsed : ℚ
  netUp : ℚ
  netDown : ℚ
  netTotalUp : ℚ
  netTotalDown : ℚ
  connTcp : ℕ
  connUdp : ℕ
  uptime : ℤ
  processCount : ℕ
  message : String
deriving DecidableEq

/-- The pure payload construction inside _sendReport. The uptime value of
a snapshot is always a finite rational here, so the isFinite guard of the
source keeps its floor. -/
def buildReportPayload (snap : Snapshot) (attachThreads : Bool) : ReportPayload :=
  { cpuUsage := _clamp (snap.metrics.cpuUsagePercentOfLimit.getD 0) 0 999,
    ramTotal := snap.metrics.ramTotal,
    ramUsed := (snap.metrics.ramUsed).getD 0,
    swapTotal := snap.metrics.swapTotal,
    swapUsed := snap.metrics.swapUsed,
    load1 := snap.metrics.load1,
    load5 := snap.metrics.load5,
    load15 := snap.metrics.load15,
    diskTotal := (snap.metrics.diskTotal).getD 0,
    diskUsed := (snap.metrics.diskUsed).getD 0,
    netUp := max 0 (Int.floor (snap.metrics.upBps.getD 0) : ℚ),
    netDown := max 0 (Int.floor (snap.metrics.downBps.getD 0) : ℚ),
    netTotalUp := snap.metrics.totalUpBytes,
    netTotalDown := snap.metrics.totalDownBytes,
    connTcp := snap.metrics.connections.tcp,
    connUdp := snap.metrics.connections.udp,
    uptime := Int.floor snap.metrics.uptimeSeconds,
    processCount := snap.metrics.processCount,
    message := if attachThreads then "threads=" ++ toString snap.metrics.threadCount else "" }

/-! ## KomariAgent: connection lifecycle -/

structure AgentConfig where
  reportIntervalMs : ℚ
  reconnectIntervalMs : ℚ
deriving DecidableEq

/-- Timer-relevant agent state: the stopped flag, whether the periodic
push timer is running, and the delays of the reconnect timeouts currently
scheduled. -/
structure AgentState where
  stopped : Bool
  reportTimer : Bool
  pendingReconnects : List ℚ
deriving DecidableEq

/-- The events driving the connection lifecycle: a close or error event of
the stream, a successful open, a reconnect timeout firing, and stop(). -/
inductive AgentEvent
  | wsClose
  | wsError
  | wsOpen
  | reconnectFire
  | stopCall
deriving DecidableEq

/-- this._scheduleReconnect: a no-op once stopped; otherwise the push
timer is cleared and exactly one reconnect timeout with the configured
delay is added. -/
def _scheduleReconnect (cfg : AgentConfig) (s : AgentState) : AgentState :=
  if s.stopped then s
  else { s with reportTimer := false,
                pendingReconnects := s.pendingReconnects ++ [cfg.reconnectIntervalMs] }

/-- One step of the connection lifecycle, as the event handlers install
it: close runs _scheduleReconnect; error only closes the socket (the
close event follows separately); open [re]starts the push timer; a firing
reconnect timeout is consumed and, when not stopped, starts a new
connection attempt (which starts no timer by itself); stop() sets the
stopped flag and clears the push timer. -/
def agentStep (cfg : AgentConfig) (s : AgentState) : AgentEvent → AgentState
  | .wsClose => _scheduleReconnect cfg s
  | .wsError => s
  | .wsOpen => { s with reportTimer := true }
  | .reconnectFire => { s with pendingReconnects := s.pendingReconnects.tail }
  | .stopCall => { s with stopped := true, reportTimer := false }

/-! ## Concrete fixtures for witnesses and counterexamples -/

/-- A /proc/net/dev table with one interface at 1000 received bytes. -/
def netdevA : String :=
  "Inter\nface\n  eth0: 1000 0 0 0 0 0 0 0 0 0 0 0 0 0 0 0"

/-- The same table after 2000 more received bytes. -/
def netdevB : String :=
  "Inter\nface\n  eth0: 3000 0 0 0 0 0 0 0 0 0 0 0 0 0 0 0"

def optsHost : Options :=
  { diskPath := "/", includeLoopback := false,
    uptimeSource := "process", ramTotalFallback := "host" }

def optsZero : Options :=
  { optsHost with ramTotalFallback := "zero" }

def optsPid1 : Options :=
  { optsHost with uptimeSource := "pid1" }

/-- An environment in which every read fails and no cgroup interface
exists. -/
def baseEnv : Env :=
  { fs := fun _ => none,
    fsExists := fun _ => false,
    nowMs := 0, cpusLen := 4, totalmem := 4096,
    load1 := 1, load5 := 2, load15 := 3,
    hostname := "h", platform := "linux", kernel := "6.1", arch := "x64",
    netInterfaces := [], dfOut := none, procEntries := [],
    processUptime := 42, clkTckOut := none }

/-- A cgroup v2 filesystem: 5 cumulative CPU seconds, unbounded memory
limit, 1000 received bytes. -/
def fsT1 : String → Option String := fun p =>
  if p = "/proc/net/dev" then some netdevA
  else if p = "/sys/fs/cgroup/cpu.stat" then some "usage_usec 5000000"
  else if p = "/sys/fs/cgroup/memory.max" then some "max"
  else none

/-- The same filesystem one second later, after the CPU counter reset to
1 cumulative second and the interface reached 3000 received bytes. -/
def fsT2 : String → Option String := fun p =>
  if p = "/proc/net/dev" then some netdevB
  else if p = "/sys/fs/cgroup/cpu.stat" then some "usage_usec 1000000"
  else if p = "/sys/fs/cgroup/memory.max" then some "max"
  else none

def envT1 : Env :=
  { baseEnv with
    fs := fsT1
    cpusLen := 1
    fsExists := fun p => p = "/sys/fs/cgroup/cgroup.controllers" }

def envT2 : Env :=
  { baseEnv with
    fs := fsT2
    cpusLen := 1
    nowMs := 1000
    fsExists := fun p => p = "/sys/fs/cgroup/cgroup.controllers" }

/-- envT2 with the clock not having advanced since envT1. -/
def envT2z : Env :=
  { envT2 with nowMs := 0 }

/-- The fresh sampler state of a process that has not sampled yet. -/
def st00 : MState := { prev := none, cgroup := none }

/-- A sampler state whose previous sample was taken at the same instant
envAt100 reports. -/
def stPrev100 : MState :=
  { prev := some { atMs := 100, cpuUsageSeconds := 5, totalRx := 1000, totalTx := 0 },
    cgroup := none }

def envAt100 : Env := { baseEnv with nowMs := 100 }

/-- A v1 descriptor whose memory paths exist in envV1. -/
def cgV1 : CgroupDescriptor :=
  { mode := .v1,
    p := { cpuacctUsage := some "/sys/fs/cgroup/cpuacct/x/cpuacct.usage",
           cpuQuota := none, cpuPeriod := none,
           memUsage := some "/sys/fs/cgroup/memory/x/memory.usage_in_bytes",
           memLimit := some "/sys/fs/cgroup/memory/x/memory.limit_in_bytes",
           memswUsage := some "/sys/fs/cgroup/memory/x/memory.memsw.usage_in_bytes",
           memswLimit := some "/sys/fs/cgroup/memory/x/memory.memsw.limit_in_bytes" } }

def envV1 : Env :=
  { baseEnv with fs := fun p =>
      if p = "/sys/fs/cgroup/memory/x/memory.usage_in_bytes" then some "400"
      else if p = "/sys/fs/cgroup/memory/x/memory.limit_in_bytes" then some "1000"
      else if p = "/sys/fs/cgroup/memory/x/memory.memsw.usage_in_bytes" then some "600"
      else if p = "/sys/fs/cgroup/memory/x/memory.memsw.limit_in_bytes" then some "1500"
      else none }

def cfg0 : AgentConfig := { reportIntervalMs := 1000, reconnectIntervalMs := 5000 }

/-- The v2 memory limit is the unbounded sentinel (the file trims to
max) or the file is unreadable. -/
def memMaxUnbounded (env : Env) : Bool :=
  match env.fs "/sys/fs/cgroup/memory.max" with
  | none => true
  | some s => trimS s = "max"

/-! ## Theorems -/

/-- Helper: no lifecycle event other than a successful open restarts the
push timer, so along any event sequence free of open events the timer
stays off. -/
theorem reportTimer_stays_off (cfg : AgentConfig) (evs : List AgentEvent)
    (s0 : AgentState) (h0 : s0.reportTimer = false)
    (hmem : AgentEvent.wsOpen ∉ evs) :
    (evs.foldl (agentStep cfg) s0).reportTimer = false := by
  induction evs generalizing s0 with
  | nil => exact h0
  | cons e evs ih =>
    have hne : e ≠ AgentEvent.wsOpen := fun he => hmem (he ▸ List.mem_cons_self e evs)
    have hmem2 : AgentEvent.wsOpen ∉ evs := fun hm => hmem (List.mem_cons_of_mem e hm)
    refine ih _ ?_ hmem2
    cases e with
    | wsClose =>
      show (_scheduleReconnect cfg s0).reportTimer = false
      unfold _scheduleReconnect
      split
      · exact h0
      · rfl
    | wsError => exact h0
    | wsOpen => exact absurd rfl hne
    | reconnectFire => exact h0
    | stopCall => rfl

/-- C10: for every filesystem state, cgroup detection yields mode v2
exactly when the unified-controller marker file exists and v1 otherwise;
the unavailable mode of the data model is never produced, and detection
is a total function (it cannot throw). -/
theorem detectCgroup_mode_total (env : Env) :
    (_detectCgroup env).mode
      = (if env.fsExists "/sys/fs/cgroup/cgroup.controllers" then CgroupMode.v2
         else CgroupMode.v1)
    ∧ (_detectCgroup env).mode ≠ CgroupMode.unavailable := by
  unfold _detectCgroup
  cases h : env.fsExists "/sys/fs/cgroup/cgroup.controllers" <;> simp [h]

/-- C8: the cpu.usage field of every outbound streaming frame lies in the
closed interval [0, 999], whatever the raw computed CPU percentage was. -/
theorem report_cpu_usage_clamped (snap : Snapshot) (attachThreads : Bool) :
    0 ≤ (buildReportPayload snap attachThreads).cpuUsage
    ∧ (buildReportPayload snap attachThreads).cpuUsage ≤ 999 := by
  unfold buildReportPayload _clamp
  refine ⟨le_min (by norm_num) (le_max_left 0 _), min_le_left _ _⟩

/-- C9: a close event while the agent is not stopped cancels the push
timer, schedules exactly one reconnect attempt with the configured fixed
delay, and the push timer is not running at any point of any subsequent
event sequence that does not contain a successful open. -/
theorem close_schedules_one_reconnect (cfg : AgentConfig) (s : AgentState)
    (h : s.stopped = false) :
    (agentStep cfg s .wsClose).reportTimer = false
    ∧ (agentStep cfg s .wsClose).pendingReconnects
        = s.pendingReconnects ++ [cfg.reconnectIntervalMs]
    ∧ ∀ evs : List AgentEvent, AgentEvent.wsOpen ∉ evs →
        (evs.foldl (agentStep cfg) (agentStep cfg s .wsClose)).reportTimer = false := by
  have hstep : agentStep cfg s .wsClose
      = { s with reportTimer := false,
                 pendingReconnects := s.pendingReconnects ++ [cfg.reconnectIntervalMs] } := by
    unfold agentStep _scheduleReconnect
    simp [h]
  refine ⟨by rw [hstep], by rw [hstep], fun evs hmem => ?_⟩
  exact reportTimer_stays_off cfg evs _ (by rw [hstep]) hmem

/-- C9 witness: a concrete close while running, followed by an error and
a reconnect firing, keeps the push timer off and leaves exactly one
scheduled reconnect delay of 5000ms. -/
theorem close_schedules_one_reconnect_witness :
    ((⟨false, true, []⟩ : AgentState).stopped = false)
    ∧ (agentStep cfg0 ⟨false, true, []⟩ .wsClose).reportTimer = false
    ∧ (agentStep cfg0 ⟨false, true, []⟩ .wsClose).pendingReconnects = [5000]
    ∧ ([AgentEvent.wsError, AgentEvent.reconnectFire].foldl (agentStep cfg0)
        (agentStep cfg0 ⟨false, true, []⟩ .wsClose)).reportTimer = false := by
  have h := close_schedules_one_reconnect cfg0 ⟨false, true, []⟩ rfl
  exact ⟨rfl, h.1, by simpa using h.2.1, h.2.2 _ (by decide)⟩

/-- C3 amended: a snapshot taken with no previous rate state (the first
call after process start) reports null for both CPU percentage fields,
reports the number 0 (not null) for both network rate fields, and is a
total computation (it cannot throw). -/
theorem first_snapshot_null_cpu_zero_net (opts : Options) (env : Env) (st : MState)
    (h : st.prev = none) :
    (snapshot opts env st).1.metrics.cpuUsagePercentOfLimit = JsVal.null
    ∧ (snapshot opts env st).1.metrics.cpuUsagePercentOfHost = JsVal.null
    ∧ (snapshot opts env st).1.metrics.upBps = JsVal.num 0
    ∧ (snapshot opts env st).1.metrics.downBps = JsVal.num 0 := by
  unfold snapshot _computeRates
  simp [h, jsOfOpt]

/-- C3 witness: the amended statement at a concrete fresh state. -/
theorem first_snapshot_null_cpu_zero_net_witness :
    st00.prev = none
    ∧ ((snapshot optsHost baseEnv st00).1.metrics.cpuUsagePercentOfLimit = JsVal.null
      ∧ (snapshot optsHost baseEnv st00).1.metrics.cpuUsagePercentOfHost = JsVal.null
      ∧ (snapshot optsHost baseEnv st00).1.metrics.upBps = JsVal.num 0
      ∧ (snapshot optsHost baseEnv st00).1.metrics.downBps = JsVal.num 0) :=
  ⟨rfl, first_snapshot_null_cpu_zero_net optsHost baseEnv st00 rfl⟩

/-- C3 counterexample: on the very first snapshot the network rate fields
are the number 0, not null, contradicting the claim that every rate field
of the first snapshot is null. -/
theorem first_snapshot_net_rates_not_null :
    (snapshot optsHost baseEnv st00).1.metrics.downBps = JsVal.num 0
    ∧ (snapshot optsHost baseEnv st00).1.metrics.upBps = JsVal.num 0
    ∧ (snapshot optsHost baseEnv st00).1.metrics.downBps ≠ JsVal.null
    ∧ (snapshot optsHost baseEnv st00).1.metrics.upBps ≠ JsVal.null := by
  decide

/-- C1: for two consecutive snapshot calls with strictly positive elapsed
wall time, each reported network rate equals the difference of the
reported cumulative byte totals divided by the elapsed seconds, floored
at 0. -/
theorem network_rate_delta_over_dt (opts : Options) (env1 env2 : Env) (st0 : MState)
    (h : 0 < (env2.nowMs - env1.nowMs) / 1000) :
    (snapshot opts env2 (snapshot opts env1 st0).2).1.metrics.downBps
      = JsVal.num (max 0
          (((snapshot opts env2 (snapshot opts env1 st0).2).1.metrics.totalDownBytes
            - (snapshot opts env1 st0).1.metrics.totalDownBytes)
          / ((env2.nowMs - env1.nowMs) / 1000)))
    ∧ (snapshot opts env2 (snapshot opts env1 st0).2).1.metrics.upBps
      = JsVal.num (max 0
          (((snapshot opts env2 (snapshot opts env1 st0).2).1.metrics.totalUpBytes
            - (snapshot opts env1 st0).1.metrics.totalUpBytes)
          / ((env2.nowMs - env1.nowMs) / 1000))) := by
  cases hp : st0.prev <;>
    (unfold snapshot _computeRates;
     simp [hp, h, jsOfOpt, apply_ite RatesResult.totalRxBytes,
           apply_ite RatesResult.totalTxBytes])

/-- C1 witness: two snapshots one second apart with the interface counter
going 1000 to 3000 received bytes satisfy the rate equation, and the
reported download rate is 2000 bytes per second. -/
theorem network_rate_delta_over_dt_witness :
    0 < (envT2.nowMs - envT1.nowMs) / 1000
    ∧ (snapshot optsHost envT2 (snapshot optsHost envT1 st00).2).1.metrics.downBps
        = JsVal.num (max 0
            (((snapshot optsHost envT2 (snapshot optsHost envT1 st00).2).1.metrics.totalDownBytes
              - (snapshot optsHost envT1 st00).1.metrics.totalDownBytes)
            / ((envT2.nowMs - envT1.nowMs) / 1000)))
    ∧ (snapshot optsHost envT2 (snapshot optsHost envT1 st00).2).1.metrics.downBps
        = JsVal.num 2000 := by
  have hn1 : envT1.nowMs = 0 := rfl
  have hn2 : envT2.nowMs = 1000 := rfl
  have hpos : 0 < (envT2.nowMs - envT1.nowMs) / 1000 := by rw [hn1, hn2]; norm_num
  refine ⟨hpos, (network_rate_delta_over_dt optsHost envT1 envT2 st00 hpos).1, ?_⟩
  have hst : (snapshot optsHost envT1 st00).2 =
      { prev := some { atMs := 0, cpuUsageSeconds := (5000000:ℚ)/1000000,
                       totalRx := ([(1000:ℚ)]).sum, totalTx := ([(0:ℚ)]).sum },
        cgroup := some (_detectCgroup envT1) } := by rfl
  have hnetB : _getNetDev optsHost envT2 = [("eth0", ⟨3000, 0⟩)] := by decide
  have hcpu : (_getCgroupCpuMemSwap optsHost envT2 (_detectCgroup envT1)).cpu =
      ⟨(1000000:ℚ)/1000000, none⟩ := rfl
  rw [hst]
  simp only [snapshot, _computeRates, jsOfOpt, hnetB, hn2, hcpu]
  norm_num

/-- C2 amended: the network rate fields of every snapshot are nonnegative
numbers, and when a previous sample exists with elapsed interval at most
0 the network rates are exactly the number 0 while the CPU percentage
fields are null (not 0); the CPU percentage fields are not floored at 0
and can be negative when the cumulative counter shrinks. -/
theorem net_rates_nonneg_cpu_null_on_nonpos_dt (opts : Options) (env : Env)
    (st : MState) :
    (snapshot opts env st).1.metrics.upBps.nonnegNum
    ∧ (snapshot opts env st).1.metrics.downBps.nonnegNum
    ∧ (∀ p, st.prev = some p → (env.nowMs - p.atMs) / 1000 ≤ 0 →
        (snapshot opts env st).1.metrics.upBps = JsVal.num 0
        ∧ (snapshot opts env st).1.metrics.downBps = JsVal.num 0
        ∧ (snapshot opts env st).1.metrics.cpuUsagePercentOfHost = JsVal.null
        ∧ (snapshot opts env st).1.metrics.cpuUsagePercentOfLimit = JsVal.null) := by
  refine ⟨?_, ?_, ?_⟩
  · cases hp : st.prev <;>
      (unfold snapshot _computeRates;
       simp [hp, JsVal.nonnegNum, apply_ite RatesResult.txBps];
       try split) <;> simp
  · cases hp : st.prev <;>
      (unfold snapshot _computeRates;
       simp [hp, JsVal.nonnegNum, apply_ite RatesResult.rxBps];
       try split) <;> simp
  · intro p hp hdt
    unfold snapshot _computeRates
    have hnot : ¬ (0 < (env.nowMs - p.atMs) / 1000) := not_lt.mpr hdt
    simp [hp, hnot, jsOfOpt]

/-- C2 witness: with a previous sample taken at the same millisecond
instant the elapsed interval is 0 and the snapshot reports zero network
rates and null CPU percentages. -/
theorem net_rates_zero_dt_witness :
    stPrev100.prev = some { atMs := 100, cpuUsageSeconds := 5, totalRx := 1000, totalTx := 0 }
    ∧ (envAt100.nowMs - 100) / 1000 ≤ 0
    ∧ ((snapshot optsHost envAt100 stPrev100).1.metrics.upBps = JsVal.num 0
      ∧ (snapshot optsHost envAt100 stPrev100).1.metrics.downBps = JsVal.num 0
      ∧ (snapshot optsHost envAt100 stPrev100).1.metrics.cpuUsagePercentOfHost = JsVal.null
      ∧ (snapshot optsHost envAt100 stPrev100).1.metrics.cpuUsagePercentOfLimit = JsVal.null) := by
  have hn : envAt100.nowMs = 100 := rfl
  have hdt : (envAt100.nowMs - 100) / 1000 ≤ 0 := by rw [hn]; norm_num
  exact ⟨rfl, hdt,
    (net_rates_nonneg_cpu_null_on_nonpos_dt optsHost envAt100 stPrev100).2.2 _ rfl hdt⟩

/-- C2 counterexample: after a cumulative CPU counter reset the reported
CPU percentage is the negative number -400, and with elapsed interval 0
the CPU percentage of limit is null rather than 0 — the claim that every
computed rate is nonnegative and that every rate is exactly 0 for
non-positive intervals fails for the CPU percentage fields. -/
theorem cpu_percent_negative_counterexample :
    (snapshot optsHost envT2 (snapshot optsHost envT1 st00).2).1.metrics.cpuUsagePercentOfHost
      = JsVal.num (-400)
    ∧ (snapshot optsHost envT2z (snapshot optsHost envT1 st00).2).1.metrics.cpuUsagePercentOfLimit
      = JsVal.null
    ∧ JsVal.num (-400) ≠ JsVal.null
    ∧ (¬ (0:ℚ) ≤ -400) := by
  have hst : (snapshot optsHost envT1 st00).2 =
      { prev := some { atMs := 0, cpuUsageSeconds := (5000000:ℚ)/1000000,
                       totalRx := ([(1000:ℚ)]).sum, totalTx := ([(0:ℚ)]).sum },
        cgroup := some (_detectCgroup envT1) } := by rfl
  refine ⟨?_, ?_, by decide, by norm_num⟩
  · have hnetB : _getNetDev optsHost envT2 = [("eth0", ⟨3000, 0⟩)] := by decide
    have hn2 : envT2.nowMs = 1000 := rfl
    have hcores : hostCoresOf envT2 = 1 := rfl
    have hcpuU : (_getCgroupCpuMemSwap optsHost envT2 (_detectCgroup envT1)).cpu.usageSeconds =
        (1000000:ℚ)/1000000 := rfl
    rw [hst]
    simp only [snapshot, _computeRates, jsOfOpt, hnetB, hn2, hcores, hcpuU]
    norm_num [hcpuU]
  · have hn2 : envT2z.nowMs = 0 := rfl
    rw [hst]
    simp only [snapshot, _computeRates, jsOfOpt, hn2]
    norm_num

/-- C4: when the v2 memory limit is the unbounded sentinel or unreadable,
the reported memory total (ram.total of the snapshot and mem_total of the
identity payload) is the host total under the host fallback policy and 0
under the zero policy, and under the host policy it is nonzero whenever
the host total is. -/
theorem ram_total_fallback_policy (opts : Options) (env : Env) (st : MState)
    (av : String)
    (hst : st.cgroup = none)
    (hv2 : env.fsExists "/sys/fs/cgroup/cgroup.controllers" = true)
    (hmm : memMaxUnbounded env = true) :
    (opts.ramTotalFallback = "host" →
      (snapshot opts env st).1.metrics.ramTotal = env.totalmem
      ∧ (getBasicInfoForKomari opts env st av).1.mem_total = env.totalmem
      ∧ (env.totalmem ≠ 0 → (snapshot opts env st).1.metrics.ramTotal ≠ 0))
    ∧ (opts.ramTotalFallback = "zero" →
      (snapshot opts env st).1.metrics.ramTotal = 0
      ∧ (getBasicInfoForKomari opts env st av).1.mem_total = 0) := by
  have hlim : (_getCgroupCpuMemSwap opts env (_detectCgroup env)).mem.limitBytes
      = ramFallback opts env := by
    unfold _detectCgroup
    rw [hv2]
    simp only [if_true]
    unfold _getCgroupCpuMemSwap
    unfold memMaxUnbounded at hmm
    cases hfs : env.fs "/sys/fs/cgroup/memory.max" with
    | none => simp [_readFileSafe, truthyStr, hfs]
    | some s =>
      rw [hfs] at hmm
      simp only [decide_eq_true_eq] at hmm
      by_cases hs : s = ""
      · simp [_readFileSafe, truthyStr, hfs, hs]
      · simp [_readFileSafe, truthyStr, hfs, hs, hmm]
  have hsnap : (snapshot opts env st).1.metrics.ramTotal = ramFallback opts env := by
    unfold snapshot
    simp [hst, hlim]
  have hinfo : (getBasicInfoForKomari opts env st av).1.mem_total
      = ramFallback opts env := by
    unfold getBasicInfoForKomari
    simp [hst, hlim]
  refine ⟨fun hh => ?_, fun hz => ?_⟩
  · have hf : ramFallback opts env = env.totalmem := by unfold ramFallback; rw [hh]; simp
    rw [hsnap, hinfo, hf]
    exact ⟨rfl, rfl, fun hnz => hnz⟩
  · have hf : ramFallback opts env = 0 := by
      unfold ramFallback
      rw [hz]
      simp
    rw [hsnap, hinfo, hf]
    exact ⟨rfl, rfl⟩

/-- C4 witness: a v2 filesystem whose memory.max reads the literal max,
under both fallback policies, with a nonzero host total of 4096. -/
theorem ram_total_fallback_policy_witness :
    st00.cgroup = none
    ∧ envT1.fsExists "/sys/fs/cgroup/cgroup.controllers" = true
    ∧ memMaxUnbounded envT1 = true
    ∧ optsHost.ramTotalFallback = "host"
    ∧ envT1.totalmem ≠ 0
    ∧ (snapshot optsHost envT1 st00).1.metrics.ramTotal = envT1.totalmem
    ∧ (getBasicInfoForKomari optsHost envT1 st00 "node-agent/1.0.7").1.mem_total
        = envT1.totalmem
    ∧ (snapshot optsHost envT1 st00).1.metrics.ramTotal ≠ 0
    ∧ (snapshot optsZero envT1 st00).1.metrics.ramTotal = 0
    ∧ (getBasicInfoForKomari optsZero envT1 st00 "node-agent/1.0.7").1.mem_total = 0 := by
  have hnz : envT1.totalmem ≠ 0 := by
    have : envT1.totalmem = 4096 := rfl
    rw [this]; norm_num
  have h1 := ram_total_fallback_policy optsHost envT1 st00 "node-agent/1.0.7" rfl rfl (by decide)
  have h2 := ram_total_fallback_policy optsZero envT1 st00 "node-agent/1.0.7" rfl rfl (by decide)
  exact ⟨rfl, rfl, by decide, rfl, hnz, (h1.1 rfl).1, (h1.1 rfl).2.1,
    (h1.1 rfl).2.2 hnz, (h2.2 rfl).1, (h2.2 rfl).2⟩

/-- C5: under the v1 interface, whenever the combined memory+swap limit
file parses to a number, the reported swap limit is that number minus the
reported plain memory limit floored at 0, and whenever both usage files
parse, the reported swap usage is the difference of the two usages
floored at 0. -/
theorem v1_swap_difference (opts : Options) (env : Env) (cg : CgroupDescriptor)
    (hm : cg.mode = CgroupMode.v1) :
    (∀ a, _toInt (_readFileSafe env cg.p.memswLimit) = some a →
      (_getCgroupCpuMemSwap opts env cg).swap.limitBytes
        = max 0 (a - (_getCgroupCpuMemSwap opts env cg).mem.limitBytes))
    ∧ (∀ a b, _toInt (_readFileSafe env cg.p.memswUsage) = some a →
        _toInt (_readFileSafe env cg.p.memUsage) = some b →
        (_getCgroupCpuMemSwap opts env cg).swap.usageBytes = max 0 (a - b)) := by
  have hne : ¬ (cg.mode = CgroupMode.v2) := by rw [hm]; decide
  unfold _getCgroupCpuMemSwap
  rw [if_neg hne]
  constructor
  · intro a ha
    simp [ha]
  · intro a b ha hb
    simp [ha, hb]

/-- C5 witness: v1 files with combined limit 1500, memory limit 1000,
combined usage 600 and memory usage 400. -/
theorem v1_swap_difference_witness :
    cgV1.mode = CgroupMode.v1
    ∧ _toInt (_readFileSafe envV1 cgV1.p.memswLimit) = some 1500
    ∧ _toInt (_readFileSafe envV1 cgV1.p.memswUsage) = some 600
    ∧ _toInt (_readFileSafe envV1 cgV1.p.memUsage) = some 400
    ∧ (_getCgroupCpuMemSwap optsHost envV1 cgV1).swap.limitBytes
        = max 0 (1500 - (_getCgroupCpuMemSwap optsHost envV1 cgV1).mem.limitBytes)
    ∧ (_getCgroupCpuMemSwap optsHost envV1 cgV1).swap.usageBytes
        = max 0 ((600:ℚ) - 400) := by
  have h := v1_swap_difference optsHost envV1 cgV1 rfl
  exact ⟨rfl, by decide, by decide, by decide,
    h.1 1500 (by decide), h.2 600 400 (by decide) (by decide)⟩

/-- Helper: every value the pid1 method produces is already clamped at
0. -/
theorem pid1Uptime_nonneg (env : Env) (v : ℚ)
    (h : _pid1UptimeSeconds env = some v) : 0 ≤ v := by
  unfold _pid1UptimeSeconds at h
  cases he : _pid1StartEpoch env <;> rw [he] at h <;> simp at h
  rw [← h]
  exact le_max_left 0 _

/-- Helper: the pid1-or-process fallback value is nonnegative when the
process uptime is. -/
theorem pid1_getD_nonneg (env : Env) (h : 0 ≤ env.processUptime) :
    0 ≤ (_pid1UptimeSeconds env).getD env.processUptime := by
  cases hp : _pid1UptimeSeconds env with
  | none => simpa using h
  | some v => simpa using pid1Uptime_nonneg env v hp

/-- C6: uptime resolution is a total function that is nonnegative for
every policy whenever the process uptime is nonnegative; the pid1 method
clamps its derived value at 0; and under the pid1 policy an unreadable or
malformed set of kernel records falls back to the process uptime. -/
theorem uptime_total_nonneg (opts : Options) (env : Env)
    (h : 0 ≤ env.processUptime) :
    0 ≤ _getContainerUptimeSeconds opts env
    ∧ (∀ e, _pid1StartEpoch env = some e →
        _pid1UptimeSeconds env = some (max 0 (env.nowMs / 1000 - e)))
    ∧ (opts.uptimeSource = "pid1" → _pid1UptimeSeconds env = none →
        _getContainerUptimeSeconds opts env = env.processUptime) := by
  refine ⟨?_, ?_, ?_⟩
  · unfold _getContainerUptimeSeconds
    split
    · exact h
    · split
      · exact pid1_getD_nonneg env h
      · split
        · exact h
        · exact pid1_getD_nonneg env h
  · intro e he
    unfold _pid1UptimeSeconds
    rw [he]
    rfl
  · intro hsrc hnone
    unfold _getContainerUptimeSeconds
    rw [hsrc]
    simp [hnone]

/-- C6 witness: the pid1 policy over an environment with no readable proc
files falls back to the process uptime 42, which is nonnegative. -/
theorem uptime_total_nonneg_witness :
    0 ≤ baseEnv.processUptime
    ∧ 0 ≤ _getContainerUptimeSeconds optsPid1 baseEnv
    ∧ optsPid1.uptimeSource = "pid1"
    ∧ _pid1UptimeSeconds baseEnv = none
    ∧ _getContainerUptimeSeconds optsPid1 baseEnv = baseEnv.processUptime := by
  have hnn : 0 ≤ baseEnv.processUptime := by
    have : baseEnv.processUptime = 42 := rfl
    rw [this]; norm_num
  have h := uptime_total_nonneg optsPid1 baseEnv hnn
  exact ⟨hnn, h.1, rfl, by decide, h.2.2 rfl (by decide)⟩

/-- C7 amended: with the cgroup interface entirely absent (no v2 marker,
unreadable membership file) the snapshot is still a total computation in
which the memory limit takes exactly the configured fallback (host total
or 0), the swap limit is 0, the CPU limit field is null (rates fall back
to the host core count internally), and every non-cgroup field carries
the value of its own subsystem reader. -/
theorem snapshot_cgroup_absent (opts : Options) (env : Env) (st : MState)
    (hst : st.cgroup = none)
    (hm : env.fsExists "/sys/fs/cgroup/cgroup.controllers" = false)
    (hcg : env.fs "/proc/self/cgroup" = none) :
    (snapshot opts env st).1.system.memLimitBytes
        = (if opts.ramTotalFallback = "host" then env.totalmem else 0)
    ∧ (snapshot opts env st).1.metrics.ramTotal
        = (if opts.ramTotalFallback = "host" then env.totalmem else 0)
    ∧ (snapshot opts env st).1.metrics.swapTotal = 0
    ∧ (snapshot opts env st).1.metrics.cpuLimitCores = none
    ∧ (snapshot opts env st).1.system.cgroupMode = CgroupMode.v1
    ∧ (snapshot opts env st).1.metrics.load1 = env.load1
    ∧ (snapshot opts env st).1.metrics.load5 = env.load5
    ∧ (snapshot opts env st).1.metrics.load15 = env.load15
    ∧ (snapshot opts env st).1.metrics.diskTotal = (_getDiskUsage env).1
    ∧ (snapshot opts env st).1.metrics.byInterface = _getNetDev opts env
    ∧ (snapshot opts env st).1.metrics.connections = _getConnSummary env
    ∧ (snapshot opts env st).1.metrics.processCount = (_getProcessAndThreads env).1
    ∧ (snapshot opts env st).1.metrics.threadCount = (_getProcessAndThreads env).2
    ∧ (snapshot opts env st).1.metrics.uptimeSeconds
        = _getContainerUptimeSeconds opts env := by
  have hmap : controllerMapOf "" = [] := by decide
  have hdet : _detectCgroup env = { mode := .v1, p := {} } := by
    unfold _detectCgroup
    rw [hm]
    simp [_readFileSafe, hcg, hmap]
  have hread : _getCgroupCpuMemSwap opts env { mode := .v1, p := {} } =
      { cpu := { usageSeconds := 0, limitCores := none },
        mem := { usageBytes := none, limitBytes := ramFallback opts env },
        swap := { usageBytes := 0, limitBytes := 0 } } := by
    unfold _getCgroupCpuMemSwap
    simp [_readFileSafe, _toInt]
  unfold snapshot
  simp [hst, hdet, hread, ramFallback]

/-- C7 witness: the empty environment with the host fallback policy. -/
theorem snapshot_cgroup_absent_witness :
    st00.cgroup = none
    ∧ baseEnv.fsExists "/sys/fs/cgroup/cgroup.controllers" = false
    ∧ baseEnv.fs "/proc/self/cgroup" = none
    ∧ (snapshot optsHost baseEnv st00).1.metrics.ramTotal
        = (if optsHost.ramTotalFallback = "host" then baseEnv.totalmem else 0)
    ∧ (snapshot optsHost baseEnv st00).1.metrics.swapTotal = 0
    ∧ (snapshot optsHost baseEnv st00).1.metrics.cpuLimitCores = none
    ∧ (snapshot optsHost baseEnv st00).1.metrics.load1 = baseEnv.load1
    ∧ (snapshot optsHost baseEnv st00).1.metrics.uptimeSeconds
        = _getContainerUptimeSeconds optsHost baseEnv := by
  have h := snapshot_cgroup_absent optsHost baseEnv st00 rfl rfl rfl
  exact ⟨rfl, rfl, rfl, h.2.1, h.2.2.1, h.2.2.2.1, h.2.2.2.2.2.1,
    h.2.2.2.2.2.2.2.2.2.2.2.2.2⟩

/-- C7 counterexample: with the cgroup interface absent the reported CPU
limit field is null; it equals neither the host core count (4 in this
environment) nor 0, so the claim that the CPU limit field takes the
configured fallback value fails. -/
theorem cpu_limit_null_counterexample :
    (snapshot optsHost baseEnv st00).1.metrics.cpuLimitCores = none
    ∧ (snapshot optsHost baseEnv st00).1.metrics.cpuLimitCores ≠ some ((4:ℚ))
    ∧ (snapshot optsHost baseEnv st00).1.metrics.cpuLimitCores ≠ some 0
    ∧ hostCoresOf baseEnv = 4 := by
  decide

end KomariNode
